import Mathlib

/-!
# Verification of the GeneFlow `GridEngineStep` module

Shallow embedding of `src/geneflow/extend/gridengine_step.py` together with
proofs about its documented behaviour.  Python dicts that are iterated in
declaration order are modelled as association lists (`List (String × String)`);
Python exceptions are modelled by an explicit error type threaded through the
results of the embedded operations.
-/

set_option autoImplicit false

namespace GeneFlow

/-- Python exception kinds that the module can raise or catch.  Only the
distinctions the module's `except` clauses can observe are modelled. -/
inductive PyErr where
  | nameError (n : String)
  | keyError (k : String)
  | indexError
  | attributeError
  | osError
  | driverError (msg : String)
  | otherError (msg : String)
  deriving DecidableEq

/-- The `except (OSError, AttributeError)` clause of `check_running_jobs`
catches exactly these two exception kinds. -/
def PyErr.caughtByPoller : PyErr → Bool
  | .osError => true
  | .attributeError => true
  | _ => false

/-- Drop everything up to and including the first occurrence of `://` in a
character list; `none` when there is no such occurrence. -/
def stripScheme : List Char → Option (List Char)
  | [] => none
  | ':' :: '/' :: '/' :: rest => some rest
  | _ :: rest => stripScheme rest

/-- Modelled from the spec: `URIParser.parse(v)['chopped_path']` (the
`geneflow.uri_parser` module is not under `src/`).  The spec says the value is
"resolved to its local path component (scheme/prefix stripped)": the scheme
part up to `://` is removed, and a value with no scheme marker is kept as is. -/
def choppedPath (v : String) : String :=
  match stripScheme v.data with
  | some rest => String.mk rest
  | none => v

/-- Resolution of declared schema entries against a map item's template,
as in `_run_map` lines 188–202: the override from `map_item['template']` if the
key is present there, else the schema default. -/
def resolve (schema template : List (String × String)) : List (String × String) :=
  schema.map (fun kv => (kv.1, (template.lookup kv.1).getD kv.2))

/-- Command construction of `_run_map` (lines 204–226): the script, one
`--name="value"` flag per non-empty resolved input (value scheme-stripped),
one flag per resolved parameter with `output` joined under the step's output
path, and finally `--exec_method="method"`.  Each appended piece is grouped
as the Python `format` call builds it. -/
def build_cmd (script : String) (appInputs appParams template : List (String × String))
    (outputPath method : String) : String :=
  let inputs := resolve appInputs template
  let parameters := resolve appParams template
  let cmd := script
  let cmd := inputs.foldl
    (fun c kv => if kv.2 = "" then c
      else c ++ (" --" ++ kv.1 ++ "=\"" ++ choppedPath kv.2 ++ "\"")) cmd
  let cmd := parameters.foldl
    (fun c kv => if kv.1 = "output"
      then c ++ (" --output=\"" ++ outputPath ++ "/" ++ kv.2 ++ "\"")
      else c ++ (" --" ++ kv.1 ++ "=\"" ++ kv.2 ++ "\"")) cmd
  cmd ++ (" --exec_method=\"" ++ method ++ "\"")

/-- The command as the specification words it: the script followed by the
input flags (only non-empty resolved values, scheme-stripped), the parameter
flags (with `output` joined under the output location), and the execution
method flag.  Stated independently of `build_cmd` so that the two can be
compared. -/
def build_cmd_spec (script : String) (appInputs appParams template : List (String × String))
    (outputPath method : String) : String :=
  let rv := fun kv : String × String => (template.lookup kv.1).getD kv.2
  let inFlags := (appInputs.filter (fun kv => !decide (rv kv = ""))).map
    (fun kv => " --" ++ kv.1 ++ "=\"" ++ choppedPath (rv kv) ++ "\"")
  let parFlags := appParams.map (fun kv =>
    if kv.1 = "output"
      then " --output=\"" ++ outputPath ++ "/" ++ rv kv ++ "\""
      else " --" ++ kv.1 ++ "=\"" ++ rv kv ++ "\"")
  script ++ String.join inFlags ++ String.join parFlags
    ++ (" --exec_method=\"" ++ method ++ "\"")

/-- One element of `map_item['run']`: a Python dict whose keys may be absent
(`none` models an absent key).  `_run_map` writes `hpc_job_id` and `status`;
`check_running_jobs` reads `proc` (a process handle, modelled as an opaque
numeric id) and writes `status`. -/
structure RunRec where
  hpc_job_id : Option String := none
  proc : Option Nat := none
  status : Option String := none
  deriving DecidableEq

/-- One entry of `self._map`: filename, template overrides, current status,
run history and current attempt index. -/
structure MapItem where
  filename : String
  template : List (String × String)
  status : String
  run : List RunRec
  attempt : Nat
  deriving DecidableEq

/-- The step configuration read by `_run_map`: the app's `local` script, its
input and parameter schemas, the step's output location path, and the
execution method and parameters of the step descriptor. -/
structure StepCtx where
  script : String
  appInputs : List (String × String)
  appParams : List (String × String)
  outputPath : String
  method : String
  execParams : String

/-- The DRMAA session collaborator (`self._gridengine['drmaa_session']`,
supplied from outside the module).  `runJob` receives the call index (the
submissions are sequential, one per map item), the job template's remote
command and its native specification, and either returns a job id or fails. -/
structure DrmaaSession where
  runJob : Nat → String → String → Except String String

/-- The native specification set by `_run_map` line 233:
`'-V {}'.format(self._step['execution']['parameters'])`. -/
def nativeSpec (ctx : StepCtx) : String := "-V " ++ ctx.execParams

/-- `_run_map` (lines 174–244): build the command, submit it through the
DRMAA session, then record the job id and set both statuses to `RUNNING`.
The second component is the Python exception escaping the call, if any: the
function has no failure return, so a driver failure propagates and leaves the
item untouched (likewise an out-of-range `attempt` index). -/
def run_map (ctx : StepCtx) (sess : DrmaaSession) (callIdx : Nat) (item : MapItem) :
    MapItem × Option PyErr :=
  let cmd := build_cmd ctx.script ctx.appInputs ctx.appParams item.template
    ctx.outputPath ctx.method
  match sess.runJob callIdx cmd (nativeSpec ctx) with
  | .error e => (item, some (.driverError e))
  | .ok jobId =>
    match item.run[item.attempt]? with
    | none => (item, some .indexError)
    | some r =>
      let r1 := { r with hpc_job_id := some jobId }
      let item1 := { item with run := item.run.set item.attempt r1 }
      let item2 := { item1 with status := "RUNNING" }
      let item3 := { item2 with
        run := item2.run.set item2.attempt { r1 with status := some "RUNNING" } }
      (item3, none)

/-- The submission loop of `run` (lines 261–267): items are submitted in
order; the first escaping exception stops the loop with every later item
untouched.  (The `return self._fatal(...)` branch of `run` is dead code:
`_run_map` either returns `True` or raises.) -/
def run_loop (ctx : StepCtx) (sess : DrmaaSession) :
    Nat → List MapItem → List MapItem × Option PyErr
  | _, [] => ([], none)
  | idx, it :: rest =>
    let step := run_map ctx sess idx it
    match step.2 with
    | none =>
      let res := run_loop ctx sess (idx + 1) rest
      (step.1 :: res.1, res.2)
    | some e => (step.1 :: rest, some e)

/-- Outcome of a whole-step operation: the registry afterwards, the returned
value or escaping exception, and the `_update_status_db` call made, if any. -/
structure RunOutcome where
  map : List MapItem
  result : Except PyErr Bool
  statusDb : Option (String × String)

/-- `run` (lines 247–271): submit every map item; on full success update the
status store to `RUNNING` with an empty detail message and return `True`. -/
def run (ctx : StepCtx) (sess : DrmaaSession) (items : List MapItem) : RunOutcome :=
  match run_loop ctx sess 0 items with
  | (items', none) => ⟨items', .ok true, some ("RUNNING", "")⟩
  | (items', some e) => ⟨items', .error e, none⟩

/-- Map a function with an explicit call index over a list (used to describe
the registry after a successful submission sweep). -/
def mapFrom (f : Nat → MapItem → MapItem) : Nat → List MapItem → List MapItem
  | _, [] => []
  | idx, it :: rest => f idx it :: mapFrom f (idx + 1) rest

/-- The command `_run_map` submits for a given item. -/
def itemCmd (ctx : StepCtx) (item : MapItem) : String :=
  build_cmd ctx.script ctx.appInputs ctx.appParams item.template ctx.outputPath ctx.method

/-- Whether `pat` occurs at the head of `s`. -/
def leadsWith : List Char → List Char → Bool
  | [], _ => true
  | _ :: _, [] => false
  | a :: as, b :: bs => a == b && leadsWith as bs

/-- Whether `pat` occurs anywhere in `s`. -/
def containsChars (pat : List Char) : List Char → Bool
  | [] => leadsWith pat []
  | c :: rest => leadsWith pat (c :: rest) || containsChars pat rest

/-- Whether the string `pat` occurs as a substring of `s`. -/
def strContains (s pat : String) : Bool := containsChars pat.data s.data

/-- A run record as it exists before any submission: no job id, no process
handle, `PENDING` status. -/
def freshRun : RunRec := { status := some "PENDING" }

/-- A map item as enumerated from the map location, before submission. -/
def freshItem (name : String) : MapItem := ⟨name, [], "PENDING", [freshRun], 0⟩

def exCtx : StepCtx := ⟨"run.sh", [], [], "/work", "direct", "-q all.q"⟩

/-- A session whose third submission call fails, all others succeed. -/
def exSessFail : DrmaaSession :=
  ⟨fun idx _ _ => if idx = 2 then .error "DRMAA communication failure" else .ok "4242"⟩

def exItems5 : List MapItem :=
  [freshItem "item_1.fa", freshItem "item_2.fa", freshItem "item_3.fa",
   freshItem "item_4.fa", freshItem "item_5.fa"]

def exSessOk : DrmaaSession := ⟨fun _ _ _ => .ok "4242"⟩

def exItems2 : List MapItem := [freshItem "a.fa", freshItem "b.fa"]

/-- Modelled from the spec: the local process inspector behind
`ShellWrapper.is_running(proc)` and `proc.returncode` (the
`geneflow.shell_wrapper` module is not under `src/`).  Either call may itself
fail: an invalid handle raises `AttributeError`, an inspection channel error
raises `OSError`, and other failure kinds are possible. -/
structure Inspector where
  is_running : Nat → Except PyErr Bool
  returncode : Nat → Except PyErr Int

/-- `map_item['run'][map_item['attempt']]['proc']` (line 305): `IndexError`
on a bad attempt index, `KeyError` when the current run record has no `proc`
key (which is the state `_run_map` itself leaves behind: it records
`hpc_job_id`, never `proc`). -/
def getProcVal (item : MapItem) : Except PyErr Nat :=
  match item.run[item.attempt]? with
  | none => .error .indexError
  | some r =>
    match r.proc with
    | none => .error (.keyError "proc")
    | some p => .ok p

/-- Write `status := st` into the record at index `i`, when there is one. -/
def setRunStatus (l : List RunRec) (i : Nat) (st : String) : List RunRec :=
  match l[i]? with
  | none => l
  | some r => l.set i { r with status := some st }

/-- Lines 307–314: set the item status to the observed value and mirror it
into the current run record (the mirroring cannot fail once the `proc` read
succeeded, since it re-reads the same indices). -/
def setStatuses (item : MapItem) (st : String) : MapItem :=
  { item with status := st, run := setRunStatus item.run item.attempt st }

/-- The try-block of one poller iteration (lines 303–314): look up the
process handle, ask the inspector whether it is live, otherwise read its
return code; non-zero means `FAILED`, zero means `FINISHED`. -/
def checkItemTry (insp : Inspector) (item : MapItem) : Except PyErr MapItem :=
  match getProcVal item with
  | .error e => .error e
  | .ok p =>
    match insp.is_running p with
    | .error e => .error e
    | .ok true => .ok (setStatuses item "RUNNING")
    | .ok false =>
      match insp.returncode p with
      | .error e => .error e
      | .ok rc =>
        if rc ≠ 0 then .ok (setStatuses item "FAILED")
        else .ok (setStatuses item "FINISHED")

/-- One poller iteration with its `except (OSError, AttributeError)` clause
(lines 315–320): those two kinds are caught, a warning is logged and only the
item status is set to `FAILED` (the run record is not touched); every other
exception escapes. -/
def checkItemCatch (item : MapItem) (e : PyErr) : MapItem × Option PyErr :=
  if e.caughtByPoller then ({ item with status := "FAILED" }, none)
  else (item, some e)

def checkItem (insp : Inspector) (item : MapItem) : MapItem × Option PyErr :=
  match checkItemTry insp item with
  | .ok it => (it, none)
  | .error e => checkItemCatch item e

/-- The sweep of `check_running_jobs` over the registry (line 302): an
escaping exception stops it, every earlier item keeping its update. -/
def check_loop (insp : Inspector) : List MapItem → List MapItem × Option PyErr
  | [] => ([], none)
  | it :: rest =>
    let step := checkItem insp it
    match step.2 with
    | none =>
      let res := check_loop insp rest
      (step.1 :: res.1, res.2)
    | some e => (step.1 :: rest, some e)

/-- `check_running_jobs` (lines 290–324).  The body names `ShellWrapper`,
which the module neither imports nor defines: `sw` is what that name
resolves to, `none` being the module as written (the lookup raises
`NameError` before any item is inspected, and `NameError` is not among the
caught kinds).  On normal completion the function returns `True` after
updating the status store with the step's current status attribute and an
empty detail message. -/
def check_running_jobs (sw : Option Inspector) (curStatus : String)
    (items : List MapItem) : RunOutcome :=
  match sw with
  | none =>
    match items with
    | [] => ⟨[], .ok true, some (curStatus, "")⟩
    | _ => ⟨items, .error (.nameError "ShellWrapper"), none⟩
  | some insp =>
    match check_loop insp items with
    | (items', none) => ⟨items', .ok true, some (curStatus, "")⟩
    | (items', some e) => ⟨items', .error e, none⟩

/-- The status of the current run record, as the data-model invariant reads
it: `attempts[currentAttempt].status`. -/
def runStatus (it : MapItem) : Option String :=
  (it.run[it.attempt]?).bind RunRec.status

/-- A submitted item as the poller sees it: one run record carrying a job id,
an optional process handle and a status mirrored in the item. -/
def pItem (name : String) (proc : Option Nat) (st : String) : MapItem :=
  ⟨name, [], st, [⟨some "4242", proc, some st⟩], 0⟩

/-- An inspector for which handle 1 is live and every other handle has
exited cleanly. -/
def wInsp : Inspector := ⟨fun p => Except.ok (p == 1), fun _ => Except.ok 0⟩

def wItems : List MapItem := [pItem "w1" (some 1) "RUNNING"]

/-- Three submitted items; the middle one has no `proc` key in its current
run record — exactly the state `_run_map` leaves behind. -/
def exPollItems : List MapItem :=
  [pItem "m1" (some 1) "RUNNING", pItem "m2" none "RUNNING",
   pItem "m3" (some 3) "RUNNING"]

/-- An inspector whose inspection of handle 2 raises `OSError`; handle 1 is
live, every other handle has exited cleanly. -/
def osInsp : Inspector :=
  ⟨fun p => if p == 2 then Except.error PyErr.osError else Except.ok (p == 1),
   fun _ => Except.ok 0⟩

def osItems : List MapItem :=
  [pItem "n1" (some 1) "RUNNING", pItem "n2" (some 2) "RUNNING",
   pItem "n3" (some 3) "RUNNING"]

/-- The data-model invariant: the MapItem status equals
`attempts[currentAttempt].status`. -/
def itemInv (it : MapItem) : Prop := runStatus it = some it.status

/-- Forget the scheduler job handle of a run record. -/
def eraseJobId (r : RunRec) : RunRec := { r with hpc_job_id := none }

/-- Forget the scheduler job handles of an item; two items agree on
everything except `hpc_job_id` exactly when their erasures are equal. -/
def itemErase (it : MapItem) : MapItem := { it with run := it.run.map eraseJobId }

/-- Modelled from the spec: `self._fatal(msg)` of the base step class (not
under `src/`): a fatal error is logged with context and the enclosing
operation reports failure to its caller; nothing in the spec has it touch the
map-item registry. -/
def fatal (items : List MapItem) (msg : String) : List MapItem × Bool × String :=
  (items, false, msg)

/-- `retry_failed` (lines 327–342): unconditionally log
`retry not yet supported for gridengine apps` and report failure through
`_fatal`; the registry is never read or written. -/
def retry_failed (items : List MapItem) : List MapItem × Bool × String :=
  fatal items "retry not yet supported for gridengine apps"

/-- `_init_data_uri` (lines 94–140), with the storage collaborator
(`DataManager`, not under `src/`) modelled from the spec by the outcomes of
its calls: whether the output location exists, whether deletion succeeds and
whether recursive creation succeeds.  The returned trace lists the storage
calls made, in order, with the logged warning. -/
def init_data_uri (scheme : String) (doesExist clean delOk mkOk : Bool) :
    Bool × List String :=
  if scheme ≠ "local" then (false, ["error_bad_scheme"])
  else
    let delEvents :=
      if doesExist && clean then
        (if delOk then ["delete"] else ["delete", "warn_delete_failed"])
      else []
    if mkOk then (true, delEvents ++ ["mkdir"])
    else (false, delEvents ++ ["mkdir", "error_mkdir_failed"])

/-- The global names defined in module `gridengine_step.py`: its four imports
and the class it defines.  Neither `LocalStep` (referenced in `__init__` line
35 and `initialize` line 86) nor `ShellWrapper` (referenced in
`check_running_jobs` line 304) is among them. -/
def moduleGlobals : List String :=
  ["Log", "WorkflowStep", "DataManager", "URIParser", "GridEngineStep"]

/-- Python name resolution against the module globals (no builtin is named
`LocalStep` or `ShellWrapper`). -/
def resolveGlobal (n : String) : Option String :=
  if n ∈ moduleGlobals then some n else none

/-- `__init__` (lines 16–49): evaluating `super(LocalStep, self)` first
resolves the name `LocalStep`; were that to succeed, the base constructor
(modelled from the spec as succeeding) would run and the gridengine context
would be stored.  The constructor arguments are irrelevant to the outcome and
are abstracted as an opaque list. -/
def GridEngineStep_init (args : List String) : Except PyErr (List String) :=
  match resolveGlobal "LocalStep" with
  | none => .error (.nameError "LocalStep")
  | some _ => .ok args

/-- `initialize` (lines 52–91): reject a non-`gridengine` execution context,
reject an app without a `local` definition, then call
`super(LocalStep, self).initialize()` — which resolves `LocalStep` first —
and return `True` only if the base initialization succeeds. -/
def initialize_step (ctxTag : String) (appHasLocalDef superInitOk : Bool) :
    Except PyErr Bool :=
  if ctxTag ≠ "gridengine" then .ok false
  else if !appHasLocalDef then .ok false
  else
    match resolveGlobal "LocalStep" with
    | none => .error (.nameError "LocalStep")
    | some _ => if superInitOk then .ok true else .ok false

def hyItemsA : List MapItem := [pItem "h1" (some 1) "RUNNING"]

/-- The same registry as `hyItemsA` except for the recorded job handle. -/
def hyItemsB : List MapItem :=
  [⟨"h1", [], "RUNNING", [⟨some "9999", some 1, some "RUNNING"⟩], 0⟩]

theorem string_foldl_shift (l : List String) :
    ∀ a : String, l.foldl (fun r s => r ++ s) a
      = a ++ l.foldl (fun r s => r ++ s) "" := by
  induction l with
  | nil => intro a; simp
  | cons b l ih =>
    intro a
    simp only [List.foldl]
    rw [ih (a ++ b), ih ("" ++ b)]
    simp [String.append_assoc]

theorem string_join_cons (s : String) (l : List String) :
    String.join (s :: l) = s ++ String.join l := by
  simp only [String.join, List.foldl]
  rw [string_foldl_shift _ ("" ++ s)]
  simp

theorem foldl_flag_skip {α : Type} (p : α → Prop) [DecidablePred p] (f : α → String) :
    ∀ (l : List α) (c : String),
      l.foldl (fun c a => if p a then c else c ++ f a) c
        = c ++ String.join ((l.filter (fun a => !decide (p a))).map f) := by
  intro l
  induction l with
  | nil => intro c; simp [String.join]
  | cons a l ih =>
    intro c
    by_cases h : p a
    · simp [h, List.foldl, ih]
    · simp only [List.foldl, if_neg h, ih]
      rw [List.filter_cons_of_pos (by simp [h]), List.map_cons, string_join_cons]
      simp [String.append_assoc]

theorem foldl_flag_ite {α : Type} (p : α → Prop) [DecidablePred p] (f g : α → String) :
    ∀ (l : List α) (c : String),
      l.foldl (fun c a => if p a then c ++ f a else c ++ g a) c
        = c ++ String.join (l.map (fun a => if p a then f a else g a)) := by
  intro l
  induction l with
  | nil => intro c; simp [String.join]
  | cons a l ih =>
    intro c
    by_cases h : p a
    · simp only [List.foldl, if_pos h, List.map_cons, ih]
      rw [string_join_cons]
      simp [String.append_assoc]
    · simp only [List.foldl, if_neg h, List.map_cons, ih]
      rw [string_join_cons]
      simp [String.append_assoc]

/-- Claim C1: the command built by `_run_map` is exactly the script followed,
in declaration order, by one `--name="value"` flag per declared input whose
resolved value is non-empty (the value scheme-stripped to its local path
component), one flag per declared parameter with `output` joined under the
step's output location, and finally `--exec_method="method"`; on the example
schema the result is the exact expected string. -/
theorem C1_build_cmd_correct :
    (∀ (script : String) (appInputs appParams template : List (String × String))
        (outputPath method : String),
      build_cmd script appInputs appParams template outputPath method
        = build_cmd_spec script appInputs appParams template outputPath method)
    ∧ build_cmd "run.sh" [("genome", "local:///ref/ref.fa")]
        [("output", "out.txt")] [] "/work/step1" "direct"
      = "run.sh --genome=\"/ref/ref.fa\" --output=\"/work/step1/out.txt\" --exec_method=\"direct\"" := by
  constructor
  · intro script appInputs appParams template outputPath method
    simp only [build_cmd, build_cmd_spec, resolve]
    rw [foldl_flag_skip (fun kv : String × String => kv.2 = "")
      (fun kv => " --" ++ kv.1 ++ "=\"" ++ choppedPath kv.2 ++ "\"")]
    rw [foldl_flag_ite (fun kv : String × String => kv.1 = "output")
      (fun kv => " --output=\"" ++ outputPath ++ "/" ++ kv.2 ++ "\"")
      (fun kv => " --" ++ kv.1 ++ "=\"" ++ kv.2 ++ "\"")]
    rw [List.filter_map, List.map_map, List.map_map]
    simp [Function.comp_def, String.append_assoc]
  · rfl

theorem run_map_err (ctx : StepCtx) (sess : DrmaaSession) (idx : Nat) (item : MapItem)
    (e : PyErr) (h : (run_map ctx sess idx item).2 = some e) :
    (run_map ctx sess idx item).1 = item := by
  unfold run_map at h ⊢
  cases hj : sess.runJob idx (build_cmd ctx.script ctx.appInputs ctx.appParams item.template
      ctx.outputPath ctx.method) (nativeSpec ctx) with
  | error msg => simp [hj]
  | ok jid =>
    cases hr : item.run[item.attempt]? with
    | none => simp [hj, hr]
    | some r => simp [hj, hr] at h

theorem run_map_ok (ctx : StepCtx) (sess : DrmaaSession) (idx : Nat) (item : MapItem)
    (h : (run_map ctx sess idx item).2 = none) :
    ∃ jid r, sess.runJob idx (itemCmd ctx item) (nativeSpec ctx) = Except.ok jid
      ∧ item.run[item.attempt]? = some r
      ∧ (run_map ctx sess idx item).1.status = "RUNNING"
      ∧ (run_map ctx sess idx item).1.attempt = item.attempt
      ∧ (run_map ctx sess idx item).1.filename = item.filename
      ∧ (run_map ctx sess idx item).1.run[item.attempt]?
          = some { r with hpc_job_id := some jid, status := some "RUNNING" } := by
  unfold run_map at h ⊢
  unfold itemCmd
  cases hj : sess.runJob idx (build_cmd ctx.script ctx.appInputs ctx.appParams item.template
      ctx.outputPath ctx.method) (nativeSpec ctx) with
  | error msg => simp [hj] at h
  | ok jid =>
    cases hr : item.run[item.attempt]? with
    | none => simp [hj, hr] at h
    | some r =>
      have hlt : item.attempt < item.run.length := by
        by_contra hge
        rw [List.getElem?_eq_none (Nat.le_of_not_lt hge)] at hr
        cases hr
      refine ⟨jid, r, rfl, rfl, ?_⟩
      simp only [hj, hr]
      refine ⟨trivial, trivial, trivial, ?_⟩
      rw [List.set_set, List.getElem?_set_eq_of_lt]
      simpa using hlt

theorem mapFrom_getElem (f : Nat → MapItem → MapItem) :
    ∀ (l : List MapItem) (idx i : Nat),
      (mapFrom f idx l)[i]? = (l[i]?).map (f (idx + i)) := by
  intro l
  induction l with
  | nil => intro idx i; simp [mapFrom]
  | cons it rest ih =>
    intro idx i
    cases i with
    | zero => simp [mapFrom]
    | succ i =>
      simp only [mapFrom, List.getElem?_cons_succ]
      rw [ih (idx + 1) i, show idx + (i + 1) = idx + 1 + i from by omega]

theorem mapFrom_length (f : Nat → MapItem → MapItem) :
    ∀ (l : List MapItem) (idx : Nat), (mapFrom f idx l).length = l.length := by
  intro l
  induction l with
  | nil => intro idx; rfl
  | cons it rest ih => intro idx; simp [mapFrom, ih]

theorem run_loop_all_ok (ctx : StepCtx) (sess : DrmaaSession) :
    ∀ (items : List MapItem) (idx : Nat),
      (∀ i item_i, items[i]? = some item_i → (run_map ctx sess (idx + i) item_i).2 = none) →
      run_loop ctx sess idx items
        = (mapFrom (fun j it => (run_map ctx sess j it).1) idx items, none) := by
  intro items
  induction items with
  | nil => intro idx h; rfl
  | cons it rest ih =>
    intro idx h
    have h0 : (run_map ctx sess idx it).2 = none := by
      have := h 0 it (by simp)
      simpa using this
    simp only [run_loop, h0]
    rw [ih (idx + 1) (fun i item_i hi => by
      have := h (i + 1) item_i (by simpa using hi)
      simpa [Nat.add_assoc, Nat.add_comm 1 i] using this)]
    simp [mapFrom]

theorem run_loop_fail (ctx : StepCtx) (sess : DrmaaSession) :
    ∀ (items : List MapItem) (k idx : Nat) (itemK : MapItem) (e : PyErr),
      items[k]? = some itemK →
      (∀ i item_i, i < k → items[i]? = some item_i →
        (run_map ctx sess (idx + i) item_i).2 = none) →
      (run_map ctx sess (idx + k) itemK).2 = some e →
      run_loop ctx sess idx items
        = (mapFrom (fun j it => (run_map ctx sess j it).1) idx (items.take k)
            ++ items.drop k, some e) := by
  intro items
  induction items with
  | nil => intro k idx itemK e hk; cases hk
  | cons it rest ih =>
    intro k idx itemK e hk hpre hfail
    cases k with
    | zero =>
      have hit : itemK = it := by simpa using hk.symm
      subst hit
      rw [Nat.add_zero] at hfail
      simp only [run_loop, hfail]
      simp [run_map_err ctx sess idx itemK e hfail, mapFrom]
    | succ k =>
      have h0 : (run_map ctx sess idx it).2 = none := by
        have := hpre 0 it (Nat.succ_pos k) (by simp)
        simpa using this
      simp only [run_loop, h0]
      rw [ih k (idx + 1) itemK e (by simpa using hk)
        (fun i item_i hi hg => by
          have := hpre (i + 1) item_i (by omega) (by simpa using hg)
          simpa [Nat.add_assoc, Nat.add_comm 1 i] using this)
        (by
          have := hfail
          rw [show idx + (k + 1) = idx + 1 + k by omega] at this
          exact this)]
      simp [mapFrom]

theorem run_loop_ok_inv (ctx : StepCtx) (sess : DrmaaSession) :
    ∀ (items : List MapItem) (idx : Nat) (l' : List MapItem),
      run_loop ctx sess idx items = (l', none) →
      (∀ i item_i, items[i]? = some item_i → (run_map ctx sess (idx + i) item_i).2 = none)
      ∧ l' = mapFrom (fun j it => (run_map ctx sess j it).1) idx items := by
  intro items
  induction items with
  | nil =>
    intro idx l' h
    refine ⟨fun i item_i hi => (by simp at hi), ?_⟩
    cases h
    rfl
  | cons it rest ih =>
    intro idx l' h
    simp only [run_loop] at h
    cases h0 : (run_map ctx sess idx it).2 with
    | some e =>
      rw [h0] at h
      simp at h
    | none =>
      rw [h0] at h
      cases hrest : run_loop ctx sess (idx + 1) rest with
      | mk restMap restErr =>
        rw [hrest] at h
        cases h
        obtain ⟨hall, hmap⟩ := ih (idx + 1) restMap hrest
        constructor
        · intro i item_i hi
          cases i with
          | zero =>
            have : item_i = it := by simpa using hi.symm
            subst this
            simpa using h0
          | succ i =>
            have := hall i item_i (by simpa using hi)
            rw [show idx + 1 + i = idx + (i + 1) by omega] at this
            exact this
        · simp [mapFrom, hmap]

/-- Claim C2 as stated is false on the code: when the Job Driver fails the
submission of the 3rd of 5 items, `run` propagates the driver's own error
unchanged, and its message does not carry the failing item's filename
(`_run_map` has no failure return, so the filename-bearing message of `run`
lines 264–267 is never built for a driver exception). -/
theorem C2_counterexample :
    (run exCtx exSessFail exItems5).result
      = Except.error (PyErr.driverError "DRMAA communication failure")
    ∧ strContains "DRMAA communication failure" "item_3.fa" = false := by
  exact ⟨rfl, rfl⟩

/-- Claim C2 amended: if the driver fails the `k`-th submission, `run` stops
immediately and the driver's failure escapes as the reported error (without
the failing item's filename in its message); the status store is not updated;
items from `k` on are completely untouched; and every item before `k` has
status `RUNNING` and a current run record with status `RUNNING` and a
recorded job handle. -/
theorem C2_run_fail_fast (ctx : StepCtx) (sess : DrmaaSession) (items : List MapItem)
    (k : Nat) (itemK : MapItem) (emsg : String)
    (hk : items[k]? = some itemK)
    (hpre : ∀ i item_i, i < k → items[i]? = some item_i →
      (run_map ctx sess i item_i).2 = none)
    (hfail : (run_map ctx sess k itemK).2 = some (.driverError emsg)) :
    (run ctx sess items).result = Except.error (PyErr.driverError emsg)
    ∧ (run ctx sess items).statusDb = none
    ∧ (∀ i, k ≤ i → (run ctx sess items).map[i]? = items[i]?)
    ∧ (∀ i item_i, i < k → items[i]? = some item_i →
        ∃ it', (run ctx sess items).map[i]? = some it'
          ∧ it'.filename = item_i.filename
          ∧ it'.status = "RUNNING"
          ∧ ∃ r, it'.run[item_i.attempt]? = some r
              ∧ r.status = some "RUNNING"
              ∧ r.hpc_job_id ≠ none) := by
  have hloop := run_loop_fail ctx sess items k 0 itemK (.driverError emsg) hk
    (fun i item_i hi hg => by simpa using hpre i item_i hi hg)
    (by simpa using hfail)
  have hrun : run ctx sess items
      = ⟨mapFrom (fun j it => (run_map ctx sess j it).1) 0 (items.take k) ++ items.drop k,
          Except.error (PyErr.driverError emsg), none⟩ := by
    unfold run
    rw [hloop]
  have hklen : k < items.length := by
    by_contra hge
    rw [List.getElem?_eq_none (Nat.le_of_not_lt hge)] at hk
    cases hk
  have hLlen : (mapFrom (fun j it => (run_map ctx sess j it).1) 0 (items.take k)).length = k := by
    rw [mapFrom_length, List.length_take]
    omega
  rw [hrun]
  refine ⟨rfl, rfl, ?_, ?_⟩
  · intro i hi
    rw [List.getElem?_append_right (by omega), hLlen, List.getElem?_drop]
    congr 1
    omega
  · intro i item_i hi hg
    rw [List.getElem?_append_left (by omega), mapFrom_getElem]
    rw [List.getElem?_take, if_pos hi, hg, Option.map_some', Nat.zero_add]
    obtain ⟨jid, r, hj, hr, hst, hat, hfn, hrunrec⟩ :=
      run_map_ok ctx sess i item_i (hpre i item_i hi hg)
    refine ⟨(run_map ctx sess i item_i).1, rfl, hfn, hst, ?_⟩
    exact ⟨{ r with hpc_job_id := some jid, status := some "RUNNING" }, hrunrec,
      rfl, by simp⟩

theorem C2_run_fail_fast_witness :
    (run exCtx exSessFail exItems5).result
      = Except.error (PyErr.driverError "DRMAA communication failure") := by
  have h := C2_run_fail_fast exCtx exSessFail exItems5 2 (freshItem "item_3.fa")
    "DRMAA communication failure" (by decide)
    (by
      intro i item_i hi hg
      interval_cases i
      · have : item_i = freshItem "item_1.fa" := by
          simpa [exItems5] using hg.symm
        subst this
        rfl
      · have : item_i = freshItem "item_2.fa" := by
          simpa [exItems5] using hg.symm
        subst this
        rfl)
    rfl
  exact h.1

/-- Claim C3: on a fresh registry (current attempt 0 for every item), if the
Job Driver returns non-empty job ids and `run` succeeds, then every item's
run record at index 0 has status `RUNNING` and a non-empty job handle, the
item status is `RUNNING`, and the step status store was updated to `RUNNING`
with an empty detail message. -/
theorem C3_run_success (ctx : StepCtx) (sess : DrmaaSession) (items : List MapItem)
    (hfresh : ∀ item ∈ items, item.attempt = 0)
    (hnz : ∀ idx cmd spec jid, sess.runJob idx cmd spec = Except.ok jid → jid ≠ "")
    (hok : (run ctx sess items).result = Except.ok true) :
    (run ctx sess items).statusDb = some ("RUNNING", "")
    ∧ ∀ (i : Nat) (item_i : MapItem), items[i]? = some item_i →
        ∃ it' : MapItem, (run ctx sess items).map[i]? = some it'
          ∧ it'.status = "RUNNING"
          ∧ ∃ (r : RunRec) (jid : String), it'.run[(0 : Nat)]? = some r
              ∧ r.status = some "RUNNING"
              ∧ r.hpc_job_id = some jid ∧ jid ≠ "" := by
  cases hloop : run_loop ctx sess 0 items with
  | mk l' e =>
    cases e with
    | some err =>
      have hres : (run ctx sess items).result = Except.error err := by
        unfold run
        rw [hloop]
      rw [hres] at hok
      cases hok
    | none =>
      have hrun : run ctx sess items = ⟨l', Except.ok true, some ("RUNNING", "")⟩ := by
        unfold run
        rw [hloop]
      obtain ⟨hall, hmap⟩ := run_loop_ok_inv ctx sess items 0 l' hloop
      rw [hrun]
      refine ⟨rfl, ?_⟩
      intro i item_i hg
      have hnone : (run_map ctx sess i item_i).2 = none := by
        simpa using hall i item_i hg
      obtain ⟨jid, r, hj, hr, hst, hat, hfn, hrunrec⟩ :=
        run_map_ok ctx sess i item_i hnone
      have hi0 : item_i.attempt = 0 :=
        hfresh item_i (List.getElem?_mem hg)
      refine ⟨(run_map ctx sess i item_i).1, ?_, hst, ?_⟩
      · rw [hmap, mapFrom_getElem, hg, Option.map_some', Nat.zero_add]
      · rw [hi0] at hrunrec
        exact ⟨{ r with hpc_job_id := some jid, status := some "RUNNING" }, jid,
          hrunrec, rfl, rfl, hnz i (itemCmd ctx item_i) (nativeSpec ctx) jid hj⟩

theorem C3_run_success_witness :
    (run exCtx exSessOk exItems2).statusDb = some ("RUNNING", "") := by
  have h := C3_run_success exCtx exSessOk exItems2 (by decide)
    (by
      intro idx cmd spec jid hj
      injection hj with h2
      subst h2
      decide)
    rfl
  exact h.1

theorem check_loop_all_ok (insp : Inspector) :
    ∀ items : List MapItem, (∀ it ∈ items, (checkItem insp it).2 = none) →
      check_loop insp items = (items.map (fun it => (checkItem insp it).1), none) := by
  intro items
  induction items with
  | nil => intro h; rfl
  | cons it rest ih =>
    intro h
    have h0 : (checkItem insp it).2 = none := h it (List.mem_cons_self it rest)
    simp only [check_loop, h0]
    rw [ih (fun x hx => h x (List.mem_cons_of_mem it hx))]
    rfl

theorem setStatuses_spec (item : MapItem) (st : String) (p : Nat)
    (hp : getProcVal item = Except.ok p) :
    (setStatuses item st).status = st ∧ runStatus (setStatuses item st) = some st := by
  unfold getProcVal at hp
  cases hr : item.run[item.attempt]? with
  | none => rw [hr] at hp; cases hp
  | some r =>
    have hlt : item.attempt < item.run.length := by
      by_contra hge
      rw [List.getElem?_eq_none (Nat.le_of_not_lt hge)] at hr
      cases hr
    refine ⟨rfl, ?_⟩
    show ((setRunStatus item.run item.attempt st)[item.attempt]?).bind RunRec.status
      = some st
    unfold setRunStatus
    rw [hr, List.getElem?_set_eq_of_lt _ hlt]
    rfl

/-- The per-item contract of the poller's try-block, for a resolved
`ShellWrapper` name: when every item of the registry is inspected without an
escaping exception, `check_running_jobs` sets each item whose handle chain
succeeds to `RUNNING` when live, `FAILED` on a non-zero exit code and
`FINISHED` on a zero exit code, writing the same value into both the MapItem
status and the current run record's status. -/
theorem poller_status_contract (insp : Inspector) (curStatus : String)
    (items : List MapItem)
    (hall : ∀ it ∈ items, (checkItem insp it).2 = none)
    (i : Nat) (item_i : MapItem) (hg : items[i]? = some item_i)
    (p : Nat) (hp : getProcVal item_i = Except.ok p) :
    ∃ it' : MapItem,
      (check_running_jobs (some insp) curStatus items).map[i]? = some it'
      ∧ (insp.is_running p = Except.ok true →
          it'.status = "RUNNING" ∧ runStatus it' = some "RUNNING")
      ∧ (∀ rc : Int, insp.is_running p = Except.ok false →
          insp.returncode p = Except.ok rc →
          (rc ≠ 0 → it'.status = "FAILED" ∧ runStatus it' = some "FAILED")
          ∧ (rc = 0 → it'.status = "FINISHED" ∧ runStatus it' = some "FINISHED")) := by
  have hloop := check_loop_all_ok insp items hall
  have hout : check_running_jobs (some insp) curStatus items
      = ⟨items.map (fun it => (checkItem insp it).1), Except.ok true,
          some (curStatus, "")⟩ := by
    simp only [check_running_jobs, hloop]
  rw [hout]
  refine ⟨(checkItem insp item_i).1, ?_, ?_, ?_⟩
  · rw [List.getElem?_map, hg]
    rfl
  · intro hlive
    have htry : checkItemTry insp item_i = Except.ok (setStatuses item_i "RUNNING") := by
      simp only [checkItemTry, hp, hlive]
    have hci : (checkItem insp item_i).1 = setStatuses item_i "RUNNING" := by
      unfold checkItem
      rw [htry]
    rw [hci]
    exact setStatuses_spec item_i "RUNNING" p hp
  · intro rc hnl hrc
    constructor
    · intro hne
      have htry : checkItemTry insp item_i = Except.ok (setStatuses item_i "FAILED") := by
        simp only [checkItemTry, hp, hnl, hrc]
        rw [if_pos hne]
      have hci : (checkItem insp item_i).1 = setStatuses item_i "FAILED" := by
        unfold checkItem
        rw [htry]
      rw [hci]
      exact setStatuses_spec item_i "FAILED" p hp
    · intro hz
      have htry : checkItemTry insp item_i
          = Except.ok (setStatuses item_i "FINISHED") := by
        simp only [checkItemTry, hp, hnl, hrc]
        rw [if_neg (by simp [hz])]
      have hci : (checkItem insp item_i).1 = setStatuses item_i "FINISHED" := by
        unfold checkItem
        rw [htry]
      rw [hci]
      exact setStatuses_spec item_i "FINISHED" p hp

theorem poller_status_contract_example :
    ∃ it' : MapItem,
      (check_running_jobs (some wInsp) "RUNNING" wItems).map[0]? = some it'
      ∧ (wInsp.is_running 1 = Except.ok true →
          it'.status = "RUNNING" ∧ runStatus it' = some "RUNNING")
      ∧ (∀ rc : Int, wInsp.is_running 1 = Except.ok false →
          wInsp.returncode 1 = Except.ok rc →
          (rc ≠ 0 → it'.status = "FAILED" ∧ runStatus it' = some "FAILED")
          ∧ (rc = 0 → it'.status = "FINISHED" ∧ runStatus it' = some "FINISHED")) :=
  poller_status_contract wInsp "RUNNING" wItems (by decide) 0
    (pItem "w1" (some 1) "RUNNING") rfl 1 rfl

/-- Claim C4 fails on the code as written: `check_running_jobs` can never
set any item's status, because the body's first expression names
`ShellWrapper`, which the module neither imports nor defines — the lookup
raises `NameError` before any handle is inspected, the exception is not
among the caught kinds, and the function aborts with every item (here one
whose handle could be inspected without error) unchanged.  The per-item
update rule the claim describes is proved separately for a resolved name in
`poller_status_contract`. -/
theorem C4_check_running_jobs_name_error :
    check_running_jobs none "RUNNING" [pItem "m1" (some 1) "RUNNING"]
      = ⟨[pItem "m1" (some 1) "RUNNING"],
          Except.error (PyErr.nameError "ShellWrapper"), none⟩
    ∧ resolveGlobal "ShellWrapper" = none
    ∧ getProcVal (pItem "m1" (some 1) "RUNNING") = Except.ok 1 := by
  exact ⟨rfl, rfl, rfl⟩

/-- Claim C5 fails on the code.  In the module as written the inspection of
no item can even start: `ShellWrapper` is not among the module's names, so
the first iteration raises `NameError`, which `except (OSError,
AttributeError)` does not catch, and the whole sweep aborts with the registry
unchanged.  Even with the name resolved, the catch clause is not the per-item
recovery the claim describes: with three items whose inspections are `live`,
`missing proc key` and `exited cleanly`, item 2's `KeyError` (the state
`_run_map` itself leaves behind) aborts the sweep — item 3 is left unchanged
although its inspection would have succeeded and changed it, and the call
does not return success. -/
theorem C5_sweep_aborts :
    check_running_jobs none "RUNNING" exPollItems
      = ⟨exPollItems, Except.error (PyErr.nameError "ShellWrapper"), none⟩
    ∧ resolveGlobal "ShellWrapper" = none
    ∧ (check_running_jobs (some wInsp) "RUNNING" exPollItems).result
      = Except.error (PyErr.keyError "proc")
    ∧ (check_running_jobs (some wInsp) "RUNNING" exPollItems).map[2]?
      = some (pItem "m3" (some 3) "RUNNING")
    ∧ checkItemTry wInsp (pItem "m3" (some 3) "RUNNING")
      = Except.ok (setStatuses (pItem "m3" (some 3) "RUNNING") "FINISHED")
    ∧ setStatuses (pItem "m3" (some 3) "RUNNING") "FINISHED"
      ≠ pItem "m3" (some 3) "RUNNING" := by
  exact ⟨rfl, rfl, rfl, rfl, rfl, by decide⟩

/-- The fault-isolation contract the poller actually implements, for a
resolved `ShellWrapper` name: inspection failures raised as `OSError` or
`AttributeError` are caught per item — the item is marked `FAILED` (item
status only) and the sweep continues, every other item is updated by its own
inspection alone, and the call returns success after updating the status
store; inspection failures of any other kind escape and abort the sweep. -/
theorem poller_fault_isolation_contract (insp : Inspector) (curStatus : String)
    (items : List MapItem)
    (hall : ∀ it ∈ items, (checkItem insp it).2 = none) :
    (check_running_jobs (some insp) curStatus items).result = Except.ok true
    ∧ (check_running_jobs (some insp) curStatus items).statusDb
      = some (curStatus, "")
    ∧ (check_running_jobs (some insp) curStatus items).map
      = items.map (fun it => (checkItem insp it).1)
    ∧ ∀ it ∈ items, ∀ e : PyErr, checkItemTry insp it = Except.error e →
        e.caughtByPoller = true →
        (checkItem insp it).1 = { it with status := "FAILED" } := by
  have hloop := check_loop_all_ok insp items hall
  have hout : check_running_jobs (some insp) curStatus items
      = ⟨items.map (fun it => (checkItem insp it).1), Except.ok true,
          some (curStatus, "")⟩ := by
    simp only [check_running_jobs, hloop]
  rw [hout]
  refine ⟨rfl, rfl, rfl, ?_⟩
  intro it _ e htry hc
  simp only [checkItem, htry, checkItemCatch, hc, if_pos]

theorem poller_fault_isolation_contract_example :
    (check_running_jobs (some osInsp) "RUNNING" osItems).result = Except.ok true :=
  (poller_fault_isolation_contract osInsp "RUNNING" osItems (by decide)).1

/-- Claim C6, as stated, is false on the code: an item satisfying the
invariant whose inspection raises `OSError` is marked `FAILED` by the
per-item error-recovery path without the run record being touched, so after
`check_running_jobs` completes (successfully) the MapItem status differs
from `attempts[currentAttempt].status`. -/
theorem C6_counterexample :
    itemInv (pItem "n2" (some 2) "RUNNING")
    ∧ (check_running_jobs (some osInsp) "RUNNING"
        [pItem "n2" (some 2) "RUNNING"]).result = Except.ok true
    ∧ (check_running_jobs (some osInsp) "RUNNING"
        [pItem "n2" (some 2) "RUNNING"]).map
      = [{ pItem "n2" (some 2) "RUNNING" with status := "FAILED" }]
    ∧ ¬ itemInv { pItem "n2" (some 2) "RUNNING" with status := "FAILED" } := by
  refine ⟨rfl, rfl, rfl, ?_⟩
  intro h
  simp [itemInv, runStatus, pItem] at h

/-- Claim C6 amended: submission (`_run_map`) establishes the invariant
`status = attempts[currentAttempt].status` at the submitted item, an
inspection that completes without an exception re-establishes it, and
`retry_failed` never modifies the registry; but the poller's per-item
error-recovery path does not preserve it (see the counterexample). -/
theorem C6_status_mirror :
    (∀ (ctx : StepCtx) (sess : DrmaaSession) (idx : Nat) (item : MapItem),
      (run_map ctx sess idx item).2 = none → itemInv (run_map ctx sess idx item).1)
    ∧ (∀ (insp : Inspector) (item it' : MapItem),
        checkItemTry insp item = Except.ok it' → itemInv it')
    ∧ (∀ items : List MapItem, (retry_failed items).1 = items) := by
  refine ⟨?_, ?_, fun items => rfl⟩
  · intro ctx sess idx item h
    obtain ⟨jid, r, hj, hr, hst, hat, hfn, hrunrec⟩ := run_map_ok ctx sess idx item h
    unfold itemInv runStatus
    rw [hat, hrunrec, hst]
    rfl
  · intro insp item it' h
    cases hp : getProcVal item with
    | error e =>
      simp only [checkItemTry, hp] at h
      exact Except.noConfusion h
    | ok p =>
      cases hl : insp.is_running p with
      | error e =>
        simp only [checkItemTry, hp, hl] at h
        exact Except.noConfusion h
      | ok b =>
        cases b with
        | true =>
          simp only [checkItemTry, hp, hl] at h
          cases h
          obtain ⟨h1, h2⟩ := setStatuses_spec item "RUNNING" p hp
          unfold itemInv
          rw [h1, h2]
        | false =>
          cases hrc : insp.returncode p with
          | error e =>
            simp only [checkItemTry, hp, hl, hrc] at h
            exact Except.noConfusion h
          | ok rc =>
            by_cases hz : rc = 0
            · simp only [checkItemTry, hp, hl, hrc] at h
              rw [if_neg (by simp [hz])] at h
              cases h
              obtain ⟨h1, h2⟩ := setStatuses_spec item "FINISHED" p hp
              unfold itemInv
              rw [h1, h2]
            · simp only [checkItemTry, hp, hl, hrc] at h
              rw [if_pos hz] at h
              cases h
              obtain ⟨h1, h2⟩ := setStatuses_spec item "FAILED" p hp
              unfold itemInv
              rw [h1, h2]

theorem C6_status_mirror_witness :
    itemInv (run_map exCtx exSessOk 0 (freshItem "a.fa")).1 :=
  C6_status_mirror.1 exCtx exSessOk 0 (freshItem "a.fa") rfl

/-- Claim C7: `retry_failed` always reports failure with the message that
retry is not supported for gridengine apps, and the registry — every MapItem
with its whole run history — is left exactly as it was. -/
theorem C7_retry_unsupported (items : List MapItem) :
    (retry_failed items).1 = items
    ∧ (retry_failed items).2.1 = false
    ∧ (retry_failed items).2.2 = "retry not yet supported for gridengine apps" := by
  exact ⟨rfl, rfl, rfl⟩

theorem getProcVal_erase (item : MapItem) :
    getProcVal (itemErase item) = getProcVal item := by
  unfold getProcVal itemErase
  cases hr : item.run[item.attempt]? with
  | none =>
    simp only [List.getElem?_map, hr]
    rfl
  | some r =>
    simp only [List.getElem?_map, hr]
    rfl

theorem setRunStatus_erase (l : List RunRec) (i : Nat) (st : String) :
    (setRunStatus l i st).map eraseJobId = setRunStatus (l.map eraseJobId) i st := by
  unfold setRunStatus
  cases hr : l[i]? with
  | none => simp [List.getElem?_map, hr]
  | some r =>
    simp only [List.getElem?_map, hr, Option.map_some']
    rw [List.map_set]
    rfl

theorem setStatuses_erase (item : MapItem) (st : String) :
    itemErase (setStatuses item st) = setStatuses (itemErase item) st := by
  unfold itemErase setStatuses
  simp only []
  rw [setRunStatus_erase]

theorem checkItemTry_erase (insp : Inspector) (item : MapItem) :
    checkItemTry insp (itemErase item) = (checkItemTry insp item).map itemErase := by
  cases hp : getProcVal item with
  | error e =>
    simp only [checkItemTry, getProcVal_erase, hp]
    rfl
  | ok p =>
    simp only [checkItemTry, getProcVal_erase, hp]
    cases hl : insp.is_running p with
    | error e =>
      simp only [hl]
      rfl
    | ok b =>
      cases b with
      | true =>
        simp only [hl]
        rw [← setStatuses_erase]
        rfl
      | false =>
        simp only [hl]
        cases hrc : insp.returncode p with
        | error e =>
          simp only [hrc]
          rfl
        | ok rc =>
          simp only [hrc]
          by_cases hz : rc = 0
          · rw [if_neg (by simp [hz]), if_neg (by simp [hz]), ← setStatuses_erase]
            rfl
          · rw [if_pos hz, if_pos hz, ← setStatuses_erase]
            rfl

theorem checkItem_erase (insp : Inspector) (item : MapItem) :
    (checkItem insp (itemErase item)).2 = (checkItem insp item).2
    ∧ (checkItem insp (itemErase item)).1 = itemErase (checkItem insp item).1 := by
  have hTe := checkItemTry_erase insp item
  cases ht : checkItemTry insp item with
  | ok it =>
    rw [ht] at hTe
    simp only [Except.map] at hTe
    unfold checkItem
    rw [ht, hTe]
    exact ⟨rfl, rfl⟩
  | error e =>
    rw [ht] at hTe
    simp only [Except.map] at hTe
    simp only [checkItem, ht, hTe, checkItemCatch]
    cases hcb : e.caughtByPoller with
    | true => exact ⟨rfl, rfl⟩
    | false => exact ⟨rfl, rfl⟩

theorem check_loop_erase (insp : Inspector) :
    ∀ items : List MapItem,
      (check_loop insp (items.map itemErase)).2 = (check_loop insp items).2
      ∧ (check_loop insp (items.map itemErase)).1
        = (check_loop insp items).1.map itemErase := by
  intro items
  induction items with
  | nil => exact ⟨rfl, rfl⟩
  | cons it rest ih =>
    obtain ⟨h2, h1⟩ := checkItem_erase insp it
    simp only [List.map_cons, check_loop, h2, h1]
    cases hs : (checkItem insp it).2 with
    | none =>
      simp only []
      exact ⟨ih.1, by rw [ih.2]; rfl⟩
    | some e =>
      exact ⟨rfl, rfl⟩

/-- Claim C10: the outcome of `check_running_jobs` does not depend on the
recorded scheduler job handles: two registries whose erasures (everything but
`hpc_job_id`) coincide produce the same returned value, the same status-store
update and registries with equal erasures — for every resolution of the
`ShellWrapper` name and every inspector behaviour.  The poller reads only the
`proc` field of the current run record and never consults `hpc_job_id`. -/
theorem C10_poller_ignores_job_ids (sw : Option Inspector) (curStatus : String)
    (items items' : List MapItem)
    (h : items.map itemErase = items'.map itemErase) :
    (check_running_jobs sw curStatus items).result
      = (check_running_jobs sw curStatus items').result
    ∧ (check_running_jobs sw curStatus items).statusDb
      = (check_running_jobs sw curStatus items').statusDb
    ∧ (check_running_jobs sw curStatus items).map.map itemErase
      = (check_running_jobs sw curStatus items').map.map itemErase := by
  have hlen : items.length = items'.length := by
    have := congrArg List.length h
    simpa using this
  cases sw with
  | none =>
    cases items with
    | nil =>
      cases items' with
      | nil => exact ⟨rfl, rfl, rfl⟩
      | cons b m => cases hlen
    | cons a l =>
      cases items' with
      | nil => cases hlen
      | cons b m =>
        refine ⟨rfl, rfl, ?_⟩
        show List.map itemErase (a :: l) = List.map itemErase (b :: m)
        exact h
  | some insp =>
    obtain ⟨e1, m1⟩ := check_loop_erase insp items
    obtain ⟨e2, m2⟩ := check_loop_erase insp items'
    have he : (check_loop insp items).2 = (check_loop insp items').2 := by
      rw [← e1, ← e2, h]
    have hm : (check_loop insp items).1.map itemErase
        = (check_loop insp items').1.map itemErase := by
      rw [← m1, ← m2, h]
    cases hc : check_loop insp items with
    | mk l e =>
      cases hc' : check_loop insp items' with
      | mk l' e' =>
        rw [hc, hc'] at he hm
        simp only at he hm
        subst he
        cases e with
        | none =>
          have o1 : check_running_jobs (some insp) curStatus items
              = ⟨l, Except.ok true, some (curStatus, "")⟩ := by
            simp only [check_running_jobs, hc]
          have o2 : check_running_jobs (some insp) curStatus items'
              = ⟨l', Except.ok true, some (curStatus, "")⟩ := by
            simp only [check_running_jobs, hc']
          rw [o1, o2]
          exact ⟨rfl, rfl, hm⟩
        | some err =>
          have o1 : check_running_jobs (some insp) curStatus items
              = ⟨l, Except.error err, none⟩ := by
            simp only [check_running_jobs, hc]
          have o2 : check_running_jobs (some insp) curStatus items'
              = ⟨l', Except.error err, none⟩ := by
            simp only [check_running_jobs, hc']
          rw [o1, o2]
          exact ⟨rfl, rfl, hm⟩

theorem C10_poller_ignores_job_ids_witness :
    (check_running_jobs (some wInsp) "RUNNING" hyItemsA).result
      = (check_running_jobs (some wInsp) "RUNNING" hyItemsB).result :=
  (C10_poller_ignores_job_ids (some wInsp) "RUNNING" hyItemsA hyItemsB (by decide)).1

/-- Claim C8: the workspace initializer fails exactly on a non-`local` scheme
or a creation failure; when the scheme is `local` and creation succeeds it
returns success even if the clean flag is set, the location exists and the
deletion fails — the deletion failure only produces a warning and creation is
still attempted; and with the clean flag unset no deletion is ever issued. -/
theorem C8_init_data_uri_clean (scheme : String) (doesExist clean delOk mkOk : Bool) :
    ((init_data_uri scheme doesExist clean delOk mkOk).1 = true
      ↔ (scheme = "local" ∧ mkOk = true))
    ∧ (clean = false → "delete" ∉ (init_data_uri scheme doesExist clean delOk mkOk).2)
    ∧ (scheme = "local" → doesExist = true → clean = true → delOk = false →
        mkOk = true →
        (init_data_uri scheme doesExist clean delOk mkOk)
          = (true, ["delete", "warn_delete_failed", "mkdir"])) := by
  unfold init_data_uri
  by_cases hs : scheme = "local"
  · rw [if_neg (by simp [hs])]
    cases doesExist <;> cases clean <;> cases delOk <;> cases mkOk <;> simp_all
  · rw [if_pos (by simp [hs])]
    constructor
    · constructor
      · intro hfalse
        cases hfalse
      · rintro ⟨h1, h2⟩
        exact absurd h1 hs
    · constructor
      · intro hclean
        simp
      · intro h1
        exact absurd h1 hs

theorem C8_init_data_uri_clean_witness :
    (init_data_uri "local" true true false true
      = (true, ["delete", "warn_delete_failed", "mkdir"]))
    ∧ "delete" ∉ (init_data_uri "local" true false true true).2 := by
  constructor
  · exact (C8_init_data_uri_clean "local" true true false true).2.2 rfl rfl rfl rfl rfl
  · exact (C8_init_data_uri_clean "local" true false true true).2.1 rfl

/-- Claim C9: the module's constructor always raises `NameError` at
`super(LocalStep, self)` because `LocalStep` is not a name of the module, so
no instance of the class can be created; and `initialize`, whose success path
evaluates `super(LocalStep, self).initialize()`, can never return `True` —
its only outcomes are `False` (context or app-definition check failed) or the
same `NameError`. -/
theorem C9_undefined_LocalStep :
    (∀ args : List String,
      GridEngineStep_init args = Except.error (PyErr.nameError "LocalStep"))
    ∧ ∀ (ctxTag : String) (appHasLocalDef superInitOk : Bool),
        initialize_step ctxTag appHasLocalDef superInitOk ≠ Except.ok true := by
  constructor
  · intro args
    rfl
  · intro ctxTag appHasLocalDef superInitOk
    unfold initialize_step
    by_cases hc : ctxTag ≠ "gridengine"
    · rw [if_pos hc]
      intro h
      cases h
    · rw [if_neg hc]
      cases appHasLocalDef with
      | false =>
        intro h
        cases h
      | true =>
        have : resolveGlobal "LocalStep" = none := rfl
        rw [this]
        intro h
        cases h

end GeneFlow
